import Mathlib

/-!
Verification of the EyeHealth retina-analyzer front end
(`src/RetinaAnalyzer.jsx`) against its natural-language specification.

The development shallowly embeds the parts of `RetinaAnalyzer.jsx` that the
specification talks about:

* the retry/backoff loop of `analyzeImage` (lines 281-333),
* the freeform regex parsing of `ResultDisplay` (lines 36-43),
* the `handleFileChange` ingestion checks (lines 243-267),
* the `saveReport` persistence handler (lines 338-373),
* the `onSnapshot` history callback with its client-side re-sort
  (lines 215-222).

Stateful React code is modelled as explicit state-passing over an `AppState`
record; the HTTP transport is modelled as a function from the attempt number
to that attempt's outcome, and the Firestore write as a boolean outcome
parameter.  All definitions are executable.
-/

namespace EyeHealth

/-! ### Analysis request pipeline (`analyzeImage`, lines 269-334)

One attempt of the loop either throws a network error (`fetch` rejects), or
yields an HTTP response with a status and the text extracted from the JSON
envelope (`result.candidates?.[0]?.content?.parts?.[0]?.text`).  A missing,
empty, or unparseable body is modelled as the extracted text `""`, which is
exactly what the JS truthiness test `if (text)` treats as absent. -/

inductive TransportResult where
  | netErr : TransportResult
  | resp (status : Nat) (text : String) : TransportResult
deriving DecidableEq

/-- The loop bound on line 281: `for (let attempt = 0; attempt < 3; ...)`. -/
def maxRetries : Nat := 3

/-- Line 327: `Math.pow(2, attempt) * 1000` — the delay slept before the
next attempt after a failed attempt `attempt`.  Note: no jitter term. -/
def backoffDelay (attempt : Nat) : Nat := 2 ^ attempt * 1000

/-- `response.ok` is true exactly for statuses 200-299. -/
def respOk (status : Nat) : Bool := 200 ≤ status && status < 300

/-- One iteration of the loop body: `some t` when the attempt returns
(lines 309-321) — requires `response.ok` and a non-empty extracted text —
and `none` when the body throws (non-ok status, network error, or empty
model output), landing in the `catch` on line 324. -/
def step : TransportResult → Option String
  | .netErr => none
  | .resp status text => if respOk status && text != "" then some text else none

/-- Observable outcome of one invocation of `analyzeImage`: the result text
on success (`setAnalysisResult`) or a surfaced error (`setError` on
line 329), together with the number of attempts performed and the list of
backoff delays slept between consecutive attempts. -/
inductive AnalyzeOutcome where
  | success (text : String) (attempts : Nat) (delays : List Nat) : AnalyzeOutcome
  | failure (attempts : Nat) (delays : List Nat) : AnalyzeOutcome
deriving DecidableEq

def AnalyzeOutcome.numAttempts : AnalyzeOutcome → Nat
  | .success _ n _ => n
  | .failure n _ => n

def AnalyzeOutcome.delaysOf : AnalyzeOutcome → List Nat
  | .success _ _ d => d
  | .failure _ d => d

/-- The retry loop of lines 281-333, recursing on the number of remaining
iterations.  A failed attempt that is not the last (`attempt < 2` on
line 326) sleeps `backoffDelay attempt` and continues; failure of the last
attempt surfaces the error. -/
def analyzeFrom (transport : Nat → TransportResult) :
    Nat → Nat → List Nat → AnalyzeOutcome
  | attempt, 0, delays => .failure attempt delays
  | attempt, remaining + 1, delays =>
    match step (transport attempt) with
    | some t => .success t (attempt + 1) delays
    | none =>
      match remaining with
      | 0 => .failure (attempt + 1) delays
      | r + 1 => analyzeFrom transport (attempt + 1) (r + 1)
          (delays ++ [backoffDelay attempt])

/-- `analyzeImage` with an image loaded: run the loop from attempt 0. -/
def runAnalyze (transport : Nat → TransportResult) : AnalyzeOutcome :=
  analyzeFrom transport 0 maxRetries []

/-- A transient failure in the sense of the specification: a network
exception, HTTP 429, or an HTTP status of at least 500. -/
def transientFail (r : TransportResult) : Prop :=
  r = .netErr ∨ ∃ s t, r = .resp s t ∧ (s = 429 ∨ 500 ≤ s)

/-- Backoff delay as the specification words it: `base * 2^attempt +
random(0, base)` with base = 1000 ms, `r` being the drawn jitter. -/
def backoffDelaySpec (attempt r : Nat) : Nat := 1000 * 2 ^ attempt + r

/-- Transport that returns HTTP 400 on the first attempt and succeeds on
every later one. -/
def ex400 : Nat → TransportResult :=
  fun n => if n = 0 then .resp 400 "bad request" else .resp 200 "ok"

/-- Transport that fails with a network error once, then succeeds. -/
def exTransient : Nat → TransportResult :=
  fun n => if n = 0 then .netErr else .resp 200 "ok"

/-- Transport that always answers HTTP 429. -/
def ex429 : Nat → TransportResult := fun _ => .resp 429 ""

/-- Transport whose every attempt raises a network error. -/
def exNet : Nat → TransportResult := fun _ => .netErr

/-! ### Freeform result parsing (`ResultDisplay`, lines 33-43)

The component applies, independently, the three case-insensitive regexes

  `/Classification:\s*(.*?)\s*(?:\n|$)/i`
  `/Description:\s*(.*?)\s*(?:\n|$)/i`
  `/Recommendation:\s*(.*?)\s*(?:\n|$)/i`

and trims the first capture group.  Since the part of each pattern after
the literal label always matches, the JS match is located at the leftmost
case-insensitive occurrence of the label.  At that point, the leading
greedy `\s*` (whose `\s` also matches newlines) swallows the maximal
whitespace run after the label, the lazy group then captures up to the
last non-whitespace character before the next newline (or the end of the
input), and the outer `.trim()` is a no-op on that capture.  Strings are
modelled as lists of characters. -/

/-- Characters matched by the JS `\s` class (ASCII part). -/
def wsChar (c : Char) : Bool :=
  c = ' ' || c = '\t' || c = '\n' || c = '\r' || c = '\x0b' || c = '\x0c'

/-- Lower-case a character list (models the regex `i` flag on the ASCII
labels used here). -/
def lowList (cs : List Char) : List Char := cs.map Char.toLower

/-- Suffix of `text` right after the leftmost case-insensitive occurrence
of `label`, or `none` when `label` does not occur. -/
def dropAfterLabelCI (label : List Char) : List Char → Option (List Char)
  | [] => if label.isEmpty then some [] else none
  | c :: rest =>
    if (lowList label).isPrefixOf (lowList (c :: rest)) then
      some (List.drop label.length (c :: rest))
    else dropAfterLabelCI label rest

/-- Remove trailing whitespace. -/
def rstrip (cs : List Char) : List Char := (cs.reverse.dropWhile wsChar).reverse

/-- The trimmed capture group of `/\s*(.*?)\s*(?:\n|$)/` applied to the
suffix after the label: skip the maximal whitespace run (which may cross
newlines), then take up to the next newline, right-trimmed. -/
def captureAfter (cs : List Char) : List Char :=
  rstrip ((cs.dropWhile wsChar).takeWhile (fun c => c != '\n'))

/-- `text.match(regex)` for one label: the trimmed capture when the label
occurs, `none` otherwise. -/
def matchField (label text : String) : Option String :=
  (dropAfterLabelCI label.toList text.toList).map
    (fun cs => String.mk (captureAfter cs))

/-- The three extracted fields of `ResultDisplay` (lines 41-43). -/
structure ParsedResult where
  classification : String
  description : String
  recommendation : String
deriving DecidableEq

/-- Lines 36-43: three independent matches with the fixed fallbacks
`'N/A'`, the full raw text, and `'Review manually.'`. -/
def parseFreeform (text : String) : ParsedResult :=
  { classification := (matchField "Classification:" text).getD "N/A"
    description := (matchField "Description:" text).getD text
    recommendation := (matchField "Recommendation:" text).getD "Review manually." }

/-- Modelled from the spec's words, for comparison with `matchField`: a
single-line match whose value is the text after the label up to the end of
the label's own line, trimmed.  This is the reading of claim C5 ("a
matched field yields the text after its label up to end of line"). -/
def matchFieldSpecLine (label text : String) : Option String :=
  (dropAfterLabelCI label.toList text.toList).map
    (fun cs => String.mk (rstrip ((cs.takeWhile (fun c => c != '\n')).dropWhile wsChar)))

/-! ### Component state and the remaining handlers

`AppState` collects the `useState` cells of the `App` component that the
claims mention.  `dbReady` stands for `db && userId` being available
(the guard on line 339).  The Firestore write outcome of `addDoc` and the
`fileToBase64` outcome are passed in as booleans since they are decided by
the external environment. -/

inductive Tab where
  | analyze : Tab
  | history : Tab
deriving DecidableEq

/-- The fields of a JS `File` object the component reads. -/
structure ImageFile where
  name : String
  mimeType : String
  size : Nat
deriving DecidableEq

/-- A history document as read back from Firestore (`doc.data()`), with
its server timestamp in seconds, absent while the write is pending. -/
structure ReportDoc where
  id : String
  classification : String
  timestamp : Option Nat
deriving DecidableEq

/-- The document written by `saveReport` (lines 351-357). -/
structure ReportData where
  classification : String
  description : String
  recommendation : String
  imagePreviewUri : String
  originalImageFileName : String
  userId : String
deriving DecidableEq

structure AppState where
  imageFile : Option ImageFile
  base64Image : Option String
  analysisResult : Option String
  error : Option String
  isSaving : Bool
  activeTab : Tab
  dbReady : Bool
  userId : String
deriving DecidableEq

def validImageMsg : String := "Please upload a valid image file."
def tooLargeMsg : String := "Image file is too large (max 5MB)."
def decodeFailMsg : String := "Failed to process image file."
def dbNotReadyMsg : String := "Database not ready. Please wait for initialization."
def saveFailMsg : String := "Failed to save report to database."

/-- Line 250: `5 * 1024 * 1024`. -/
def maxFileSize : Nat := 5 * 1024 * 1024

/-- Line 246: `file.type.startsWith('image/')`. -/
def hasImageMime (f : ImageFile) : Bool :=
  "image/".toList.isPrefixOf f.mimeType.toList

/-- `handleFileChange` (lines 243-267): reject a non-image MIME type, then
an oversized file, by surfacing an error message and returning; otherwise
load the file, clear the previous result, switch to the analyze tab, and
store the base64 payload (or surface a decode error, leaving the previous
payload in place, as the code's `catch` does). -/
def handleFileChange (s : AppState) (file : Option ImageFile)
    (decodeOk : Bool) (b64 : String) : AppState :=
  match file with
  | none => s
  | some f =>
    if hasImageMime f = false then
      { s with error := some validImageMsg }
    else if maxFileSize < f.size then
      { s with error := some tooLargeMsg }
    else
      let s1 := { s with error := none, imageFile := some f,
                         analysisResult := none, activeTab := Tab.analyze }
      if decodeOk then { s1 with base64Image := some b64 }
      else { s1 with error := some decodeFailMsg }

/-- Line 349 and lines 351-357: the document handed to `addDoc`, built
from the parsed fields, the loaded file's metadata and the user id.  The
image reference is the fixed placeholder data URI; the base64 payload is
not an input. -/
def mkReportData (parsed : ParsedResult) (file : ImageFile) (uid : String) :
    ReportData :=
  { classification := parsed.classification
    description := parsed.description
    recommendation := parsed.recommendation
    imagePreviewUri := "data:" ++ file.mimeType ++ ";base64,...(redacted for storage)"
    originalImageFileName := file.name
    userId := uid }

/-- `saveReport` (lines 338-373) as a state transition, returning the new
state and the document persisted by `addDoc` (`none` when nothing was
written).  `writeOk` is the outcome of the `addDoc` call.  The
`s.imageFile = none` case is unreachable from the UI (the save button only
exists while a result from a loaded image is shown) and is modelled as a
no-op. -/
def saveReport (s : AppState) (parsed : ParsedResult) (writeOk : Bool) :
    AppState × Option ReportData :=
  if s.dbReady = false then ({ s with error := some dbNotReadyMsg }, none)
  else
    match s.imageFile with
    | none => (s, none)
    | some f =>
      let s1 := { s with isSaving := true, error := none }
      let doc := mkReportData parsed f s.userId
      if writeOk then
        ({ s1 with analysisResult := none, base64Image := none,
                   imageFile := none, isSaving := false }, some doc)
      else
        ({ s1 with error := some saveFailMsg, isSaving := false }, none)

/-! ### History subscription (`onSnapshot` callback, lines 215-222)

On every snapshot delivery the callback collects the documents and then
always runs `fetchedReports.sort((a, b) => (b.timestamp?.seconds || 0) -
(a.timestamp?.seconds || 0))` before `setReports`.  The comparator orders
by timestamp descending with a missing timestamp read as 0; the sort is
modelled by stable insertion sort under that ordering. -/

/-- `r.timestamp?.seconds || 0`. -/
def sortKey (r : ReportDoc) : Nat := r.timestamp.getD 0

/-- The comparator's ordering: newest (largest timestamp) first. -/
def newestFirst (a b : ReportDoc) : Prop := sortKey b ≤ sortKey a

instance : DecidableRel newestFirst := fun a b => Nat.decLe (sortKey b) (sortKey a)

instance : IsTotal ReportDoc newestFirst :=
  ⟨fun a b => Nat.le_total (sortKey b) (sortKey a)⟩

instance : IsTrans ReportDoc newestFirst :=
  ⟨fun _ _ _ h1 h2 => Nat.le_trans h2 h1⟩

/-- Lines 216-222: the full delivered collection, re-sorted client-side. -/
def processSnapshot (docs : List ReportDoc) : List ReportDoc :=
  List.insertionSort newestFirst docs

/-! Concrete inputs used by witnesses. -/

def exFile : ImageFile := { name := "scan.png", mimeType := "image/png", size := 1000 }

def exBadFile : ImageFile := { name := "notes.txt", mimeType := "text/plain", size := 1000 }

def exParsed : ParsedResult :=
  { classification := "Healthy Retina"
    description := "No abnormalities."
    recommendation := "Monitor Annually." }

def exState : AppState :=
  { imageFile := some exFile
    base64Image := some "QUJDRA"
    analysisResult := some "Classification: Healthy Retina"
    error := none
    isSaving := false
    activeTab := Tab.analyze
    dbReady := true
    userId := "user-1" }

def exDocA : ReportDoc := { id := "a", classification := "Healthy Retina", timestamp := some 5 }

def exDocB : ReportDoc := { id := "b", classification := "Glaucoma", timestamp := some 9 }

def exDocPending : ReportDoc := { id := "c", classification := "AMD", timestamp := none }

/-! Helper lemmas for unfolding the three-iteration loop. -/

theorem runAnalyze_succ0 (transport : Nat → TransportResult) {t : String}
    (h0 : step (transport 0) = some t) :
    runAnalyze transport = .success t 1 [] := by
  simp [runAnalyze, maxRetries, analyzeFrom, h0]

theorem runAnalyze_succ1 (transport : Nat → TransportResult) {t : String}
    (h0 : step (transport 0) = none) (h1 : step (transport 1) = some t) :
    runAnalyze transport = .success t 2 [backoffDelay 0] := by
  simp [runAnalyze, maxRetries, analyzeFrom, h0, h1]

theorem runAnalyze_succ2 (transport : Nat → TransportResult) {t : String}
    (h0 : step (transport 0) = none) (h1 : step (transport 1) = none)
    (h2 : step (transport 2) = some t) :
    runAnalyze transport = .success t 3 [backoffDelay 0, backoffDelay 1] := by
  simp [runAnalyze, maxRetries, analyzeFrom, h0, h1, h2]

theorem runAnalyze_fail (transport : Nat → TransportResult)
    (h0 : step (transport 0) = none) (h1 : step (transport 1) = none)
    (h2 : step (transport 2) = none) :
    runAnalyze transport = .failure 3 [backoffDelay 0, backoffDelay 1] := by
  simp [runAnalyze, maxRetries, analyzeFrom, h0, h1, h2]

theorem step_of_transientFail {r : TransportResult} (h : transientFail r) :
    step r = none := by
  rcases h with h | ⟨s, t, rfl, hs⟩
  · subst h; rfl
  · rcases hs with rfl | hs
    · simp [step, respOk]
    · have : (200 ≤ s && s < 300) = false := by
        simp only [Bool.and_eq_false_iff, decide_eq_false_iff_not, not_lt]
        right; omega
      simp [step, respOk, this]

/-- Claim C1 counterexample: the specification says an HTTP 4xx status
other than 429 is surfaced as a PermanentError and is never retried, so a
first-attempt 400 would end the invocation after exactly one attempt with a
failure.  The code instead lands every thrown error in the same `catch`
and retries: with a 400 on attempt 0 and success on attempt 1, the run
performs two attempts and succeeds. -/
theorem analyzeImage_retries_4xx_counterexample :
    runAnalyze ex400 = .success "ok" 2 [backoffDelay 0]
    ∧ (runAnalyze ex400).numAttempts ≠ 1 := by decide

/-- Claim C1 (amended): every failure of an attempt — network exception,
any non-2xx HTTP status (including 4xx other than 429), and missing or
empty model output — is retried alike, up to the fixed maximum of 3
attempts; the error is surfaced only after the final attempt fails, and no
invocation performs more than 3 attempts. -/
theorem analyzeImage_retry_policy (transport : Nat → TransportResult) :
    (∀ n, n + 1 < maxRetries → (∀ m, m ≤ n → step (transport m) = none) →
      n + 2 ≤ (runAnalyze transport).numAttempts)
    ∧ (runAnalyze transport).numAttempts ≤ maxRetries
    ∧ ((∀ m, m < maxRetries → step (transport m) = none) →
      runAnalyze transport = .failure maxRetries [backoffDelay 0, backoffDelay 1]) := by
  rcases h0 : step (transport 0) with _ | t0
  · rcases h1 : step (transport 1) with _ | t1
    · rcases h2 : step (transport 2) with _ | t2
      · rw [runAnalyze_fail transport h0 h1 h2]
        refine ⟨fun n hn _ => ?_, by simp [AnalyzeOutcome.numAttempts, maxRetries], fun _ => rfl⟩
        simp only [AnalyzeOutcome.numAttempts]
        simp only [maxRetries] at hn
        omega
      · rw [runAnalyze_succ2 transport h0 h1 h2]
        refine ⟨fun n hn _ => ?_, by simp [AnalyzeOutcome.numAttempts, maxRetries], fun hall => ?_⟩
        · simp only [AnalyzeOutcome.numAttempts]
          simp only [maxRetries] at hn
          omega
        · exact absurd h2 (by simp [hall 2 (by simp [maxRetries])])
    · rw [runAnalyze_succ1 transport h0 h1]
      refine ⟨fun n hn hall => ?_, by simp [AnalyzeOutcome.numAttempts, maxRetries], fun hall => ?_⟩
      · simp only [AnalyzeOutcome.numAttempts]
        simp only [maxRetries] at hn
        have hn01 : n = 0 ∨ n = 1 := by omega
        rcases hn01 with rfl | rfl
        · omega
        · exact absurd h1 (by simp [hall 1 (le_refl 1)])
      · exact absurd h1 (by simp [hall 1 (by simp [maxRetries])])
  · rw [runAnalyze_succ0 transport h0]
    refine ⟨fun n _ hall => ?_, by simp [AnalyzeOutcome.numAttempts, maxRetries], fun hall => ?_⟩
    · exact absurd h0 (by simp [hall 0 (Nat.zero_le n)])
    · exact absurd h0 (by simp [hall 0 (by simp [maxRetries])])

/-- Claim C1 witness: a 400 on the first attempt is followed by a second
attempt, and no run exceeds the attempt cap. -/
theorem analyzeImage_retry_policy_witness :
    2 ≤ (runAnalyze ex400).numAttempts
    ∧ (runAnalyze ex400).numAttempts ≤ maxRetries :=
  ⟨(analyzeImage_retry_policy ex400).1 0 (by decide)
    (fun m hm => by
      have h : m = 0 := Nat.le_zero.mp hm
      subst h; decide),
   (analyzeImage_retry_policy ex400).2.1⟩

/-- Claim C2: if the transport fails transiently on the first N attempts
(N below the attempt cap) and then succeeds, `analyzeImage` returns the
successful text, performs exactly N+1 attempts, and the backoff delays
slept between consecutive attempts are strictly increasing. -/
theorem analyzeImage_recovers_after_transient (transport : Nat → TransportResult)
    (N status : Nat) (text : String)
    (hN : N < maxRetries)
    (hfail : ∀ m, m < N → transientFail (transport m))
    (hresp : transport N = .resp status text)
    (hok : respOk status = true) (ht : text ≠ "") :
    runAnalyze transport = .success text (N + 1) ((List.range N).map backoffDelay)
    ∧ ((List.range N).map backoffDelay).Pairwise (fun a b => a < b) := by
  have hstep : step (transport N) = some text := by
    simp [step, hresp, hok, ht]
  have hN3 : N < 3 := hN
  interval_cases N
  · refine ⟨?_, by decide⟩
    rw [show ((List.range 0).map backoffDelay) = [] from by decide]
    exact runAnalyze_succ0 transport hstep
  · refine ⟨?_, by decide⟩
    rw [show ((List.range 1).map backoffDelay) = [backoffDelay 0] from by decide]
    exact runAnalyze_succ1 transport
      (step_of_transientFail (hfail 0 (by omega))) hstep
  · refine ⟨?_, by decide⟩
    rw [show ((List.range 2).map backoffDelay) = [backoffDelay 0, backoffDelay 1] from by decide]
    exact runAnalyze_succ2 transport
      (step_of_transientFail (hfail 0 (by omega)))
      (step_of_transientFail (hfail 1 (by omega))) hstep

/-- Claim C2 witness: one network failure then success yields the result
in exactly two attempts with the single delay trivially increasing. -/
theorem analyzeImage_recovers_after_transient_witness :
    runAnalyze exTransient = .success "ok" 2 ((List.range 1).map backoffDelay)
    ∧ ((List.range 1).map backoffDelay).Pairwise (fun a b => a < b) :=
  analyzeImage_recovers_after_transient exTransient 1 200 "ok" (by decide)
    (fun m hm => by
      have h : m = 0 := Nat.lt_one_iff.mp hm
      subst h; exact Or.inl rfl)
    rfl (by decide) (by decide)

/-- Claim C3: a transport that answers HTTP 429 on every attempt makes
`analyzeImage` perform exactly `maxRetries` attempts and then surface the
failure (the error set on line 329, with no further retry). -/
theorem analyzeImage_429_exhausts_attempts (transport : Nat → TransportResult)
    (body : Nat → String)
    (h : ∀ n, transport n = .resp 429 (body n)) :
    runAnalyze transport = .failure maxRetries [backoffDelay 0, backoffDelay 1]
    ∧ (runAnalyze transport).numAttempts = maxRetries := by
  have hs : ∀ n, step (transport n) = none := by
    intro n
    rw [h n]
    simp [step, respOk]
  have := runAnalyze_fail transport (hs 0) (hs 1) (hs 2)
  exact ⟨this, by rw [this]; rfl⟩

/-- Claim C3 witness: the constant-429 transport exhausts all three
attempts and fails. -/
theorem analyzeImage_429_exhausts_attempts_witness :
    runAnalyze ex429 = .failure maxRetries [backoffDelay 0, backoffDelay 1]
    ∧ (runAnalyze ex429).numAttempts = maxRetries :=
  analyzeImage_429_exhausts_attempts ex429 (fun _ => "") (fun _ => rfl)

/-- Claim C4 counterexample: the specification says every retry delay is
`base * 2^attempt + random(0, base)` — an exponential component plus a
random jitter term.  The code computes `Math.pow(2, attempt) * 1000` with
no call to `Math.random()`: the delays of a fully failing run are exactly
[1000, 2000] ms, and the delay after attempt 0 never takes the value
1500 ms that the jitter draw r = 500 would produce. -/
theorem backoff_no_jitter_counterexample :
    (runAnalyze exNet).delaysOf = [backoffDelay 0, backoffDelay 1]
    ∧ backoffDelay 0 = 1000 ∧ backoffDelay 1 = 2000
    ∧ backoffDelaySpec 0 500 = 1500
    ∧ backoffDelay 0 ≠ backoffDelaySpec 0 500 := by decide

/-- Claim C4 (amended): the backoff delay before the next attempt after a
retried failure of attempt `a` equals `base * 2^a` exactly, base =
1000 ms, with no jitter term: the delays of every run are the pure
exponential sequence. -/
theorem backoff_pure_exponential (transport : Nat → TransportResult) :
    (runAnalyze transport).delaysOf
      = (List.range ((runAnalyze transport).numAttempts - 1)).map
          (fun a => 1000 * 2 ^ a) := by
  rcases h0 : step (transport 0) with _ | t0
  · rcases h1 : step (transport 1) with _ | t1
    · rcases h2 : step (transport 2) with _ | t2
      · rw [runAnalyze_fail transport h0 h1 h2]; decide
      · rw [runAnalyze_succ2 transport h0 h1 h2]
        simp only [AnalyzeOutcome.delaysOf, AnalyzeOutcome.numAttempts]
        decide
    · rw [runAnalyze_succ1 transport h0 h1]
      simp only [AnalyzeOutcome.delaysOf, AnalyzeOutcome.numAttempts]
      decide
  · rw [runAnalyze_succ0 transport h0]
    simp only [AnalyzeOutcome.delaysOf, AnalyzeOutcome.numAttempts]
    decide

/-- Claim C5 counterexample: the claim says a matched field yields the
text after its label up to end of line, so on the input
`"Classification:\nHealthy Retina"` — where nothing but the line break
follows the label on its line — the classification would be the empty
remainder of that line.  Because `\s` in the regex also matches newlines,
the code instead captures `"Healthy Retina"` from the following line. -/
theorem resultDisplay_lineOnly_counterexample :
    (parseFreeform "Classification:\nHealthy Retina").classification = "Healthy Retina"
    ∧ matchFieldSpecLine "Classification:" "Classification:\nHealthy Retina" = some ""
    ∧ ("Healthy Retina" : String) ≠ "" := by decide

/-- Claim C5 (amended): the three labels are matched independently and
case-insensitively, tolerating any order or absence; an unmatched field
defaults to `'N/A'` / the full raw text / `'Review manually.'`; a matched
field yields the text starting at the first non-whitespace character
after its label (the skipped whitespace may cross line breaks) up to that
line's end, trimmed.  The fully labeled three-line example parses to its
three values — also with the labels permuted — and `"random text"` parses
to the three defaults. -/
theorem resultDisplay_parse_amended :
    (∀ text : String,
      (matchField "Classification:" text = none →
        (parseFreeform text).classification = "N/A")
      ∧ (matchField "Description:" text = none →
        (parseFreeform text).description = text)
      ∧ (matchField "Recommendation:" text = none →
        (parseFreeform text).recommendation = "Review manually."))
    ∧ parseFreeform "Classification: Healthy Retina\nDescription: No abnormalities.\nRecommendation: Monitor Annually."
        = { classification := "Healthy Retina", description := "No abnormalities.",
            recommendation := "Monitor Annually." }
    ∧ parseFreeform "random text"
        = { classification := "N/A", description := "random text",
            recommendation := "Review manually." }
    ∧ parseFreeform "Recommendation: Monitor Annually.\nClassification: Healthy Retina\nDescription: No abnormalities."
        = { classification := "Healthy Retina", description := "No abnormalities.",
            recommendation := "Monitor Annually." } := by
  refine ⟨fun text => ⟨fun h => ?_, fun h => ?_, fun h => ?_⟩, by decide, by decide, by decide⟩
  all_goals simp [parseFreeform, h]

/-- Claim C5 witness: an input with no labels at all falls back to the
`'N/A'` classification default. -/
theorem resultDisplay_parse_amended_witness :
    (parseFreeform "xyz").classification = "N/A" :=
  (resultDisplay_parse_amended.1 "xyz").1 (by decide)

/-- Claim C6: the document persisted by `saveReport` is independent of the
in-memory base64 image payload (the payload is not an input of the
document construction), and its only image reference is the fixed redacted
placeholder URI built from the MIME type alone. -/
theorem saveReport_never_stores_image_bytes (s : AppState) (parsed : ParsedResult)
    (writeOk : Bool) (b1 b2 : Option String) :
    ((saveReport { s with base64Image := b1 } parsed writeOk).2
      = (saveReport { s with base64Image := b2 } parsed writeOk).2)
    ∧ (∀ f doc, s.imageFile = some f → (saveReport s parsed writeOk).2 = some doc →
        doc.imagePreviewUri = "data:" ++ f.mimeType ++ ";base64,...(redacted for storage)") := by
  constructor
  · cases hdb : s.dbReady <;> cases himg : s.imageFile <;> cases writeOk <;>
      simp [saveReport, hdb, himg]
  · intro f doc hf hdoc
    cases hdb : s.dbReady
    · simp [saveReport, hdb] at hdoc
    · cases writeOk
      · simp [saveReport, hdb, hf] at hdoc
      · simp [saveReport, hdb, hf] at hdoc
        rw [← hdoc]
        rfl

/-- Claim C6 witness: two states differing only in the held payload yield
the same persisted document, whose image reference is the placeholder. -/
theorem saveReport_never_stores_image_bytes_witness :
    ((saveReport { exState with base64Image := some "QUJDRA" } exParsed true).2
      = (saveReport { exState with base64Image := some "WldYWQ" } exParsed true).2)
    ∧ (mkReportData exParsed exFile "user-1").imagePreviewUri
        = "data:" ++ exFile.mimeType ++ ";base64,...(redacted for storage)" :=
  ⟨(saveReport_never_stores_image_bytes exState exParsed true
      (some "QUJDRA") (some "WldYWQ")).1,
   (saveReport_never_stores_image_bytes exState exParsed true
      (some "QUJDRA") (some "WldYWQ")).2 exFile
      (mkReportData exParsed exFile "user-1") rfl (by decide)⟩

/-- Claim C7: a selected file with a non-image MIME type or a size above
the 5 MB ceiling is rejected by surfacing one of the two recoverable error
messages, and the previously held image file, base64 payload and analysis
result are left unchanged. -/
theorem handleFileChange_rejects_invalid (s : AppState) (f : ImageFile)
    (decodeOk : Bool) (b64 : String)
    (h : hasImageMime f = false ∨ maxFileSize < f.size) :
    ((handleFileChange s (some f) decodeOk b64).imageFile = s.imageFile)
    ∧ ((handleFileChange s (some f) decodeOk b64).base64Image = s.base64Image)
    ∧ ((handleFileChange s (some f) decodeOk b64).analysisResult = s.analysisResult)
    ∧ ((handleFileChange s (some f) decodeOk b64).error = some validImageMsg
       ∨ (handleFileChange s (some f) decodeOk b64).error = some tooLargeMsg) := by
  by_cases hm : hasImageMime f = false
  · simp [handleFileChange, hm]
  · simp only [Bool.not_eq_false] at hm
    rcases h with h | h
    · rw [hm] at h
      exact absurd h (by simp)
    · simp [handleFileChange, hm, h]

/-- Claim C7 witness: a text file is rejected with the MIME error and the
pipeline state is untouched. -/
theorem handleFileChange_rejects_invalid_witness :
    ((handleFileChange exState (some exBadFile) true "zzz").imageFile = exState.imageFile)
    ∧ ((handleFileChange exState (some exBadFile) true "zzz").base64Image = exState.base64Image)
    ∧ ((handleFileChange exState (some exBadFile) true "zzz").analysisResult = exState.analysisResult)
    ∧ ((handleFileChange exState (some exBadFile) true "zzz").error = some validImageMsg
       ∨ (handleFileChange exState (some exBadFile) true "zzz").error = some tooLargeMsg) :=
  handleFileChange_rejects_invalid exState exBadFile true "zzz" (Or.inl (by decide))

/-- Claim C8: on every snapshot delivery the callback re-sorts the full
delivered collection by timestamp descending — unconditionally, for every
input ordering — before exposing it, with a missing timestamp read as 0;
the sorted list is a permutation of the delivery. -/
theorem onSnapshot_resorts_unconditionally (docs : List ReportDoc) :
    List.Sorted newestFirst (processSnapshot docs)
    ∧ (processSnapshot docs).Perm docs
    ∧ (∀ r : ReportDoc, r.timestamp = none → sortKey r = 0) := by
  refine ⟨List.sorted_insertionSort newestFirst docs,
    List.perm_insertionSort newestFirst docs, ?_⟩
  intro r h
  simp [sortKey, h]

/-- Claim C8 witness: an out-of-order delivery with a pending timestamp is
re-sorted into descending order. -/
theorem onSnapshot_resorts_unconditionally_witness :
    List.Sorted newestFirst (processSnapshot [exDocA, exDocB, exDocPending])
    ∧ (processSnapshot [exDocA, exDocB, exDocPending]).Perm [exDocA, exDocB, exDocPending]
    ∧ sortKey exDocPending = 0 :=
  ⟨(onSnapshot_resorts_unconditionally [exDocA, exDocB, exDocPending]).1,
   (onSnapshot_resorts_unconditionally [exDocA, exDocB, exDocPending]).2.1,
   (onSnapshot_resorts_unconditionally [exDocA, exDocB, exDocPending]).2.2 exDocPending rfl⟩

/-- Claim C9: when the Firestore write fails, `saveReport` surfaces the
save error but leaves the in-memory analysis result — and the loaded image
data — unchanged, and persists nothing. -/
theorem saveReport_failure_preserves_result (s : AppState) (parsed : ParsedResult)
    (f : ImageFile) (hdb : s.dbReady = true) (himg : s.imageFile = some f) :
    ((saveReport s parsed false).1.analysisResult = s.analysisResult)
    ∧ ((saveReport s parsed false).1.base64Image = s.base64Image)
    ∧ ((saveReport s parsed false).1.imageFile = s.imageFile)
    ∧ ((saveReport s parsed false).1.error = some saveFailMsg)
    ∧ ((saveReport s parsed false).2 = none) := by
  simp [saveReport, hdb, himg]

/-- Claim C9 witness: a failed write on a concrete ready state keeps the
shown result and surfaces the error. -/
theorem saveReport_failure_preserves_result_witness :
    ((saveReport exState exParsed false).1.analysisResult = exState.analysisResult)
    ∧ ((saveReport exState exParsed false).1.base64Image = exState.base64Image)
    ∧ ((saveReport exState exParsed false).1.imageFile = exState.imageFile)
    ∧ ((saveReport exState exParsed false).1.error = some saveFailMsg)
    ∧ ((saveReport exState exParsed false).2 = none) :=
  saveReport_failure_preserves_result exState exParsed exFile rfl rfl

/-- Claim C10: a successful save clears the analysis result, the base64
payload and the selected image file (all `none`), and the `isSaving` flag
is reset to false in the success and in the failure case alike. -/
theorem saveReport_success_clears_view (s : AppState) (parsed : ParsedResult)
    (f : ImageFile) (hdb : s.dbReady = true) (himg : s.imageFile = some f) :
    ((saveReport s parsed true).1.analysisResult = none)
    ∧ ((saveReport s parsed true).1.base64Image = none)
    ∧ ((saveReport s parsed true).1.imageFile = none)
    ∧ ((saveReport s parsed true).1.isSaving = false)
    ∧ ((saveReport s parsed false).1.isSaving = false) := by
  simp [saveReport, hdb, himg]

/-- Claim C10 witness: the concrete ready state is cleared on success and
the saving flag resets either way. -/
theorem saveReport_success_clears_view_witness :
    ((saveReport exState exParsed true).1.analysisResult = none)
    ∧ ((saveReport exState exParsed true).1.base64Image = none)
    ∧ ((saveReport exState exParsed true).1.imageFile = none)
    ∧ ((saveReport exState exParsed true).1.isSaving = false)
    ∧ ((saveReport exState exParsed false).1.isSaving = false) :=
  saveReport_success_clears_view exState exParsed exFile rfl rfl

end EyeHealth
